import Mathlib

/-!
Verification of the `modelling-site` backend (`src/Backend/server.js`).

The Express route handlers are embedded as pure Lean functions over an
explicit `State` that holds the four MySQL tables (`users`, `models`,
`model_images`, `editor_uploads`) as lists in insertion order, together
with the Cloudinary object store modelled as the list of public ids it
currently holds, and the auto-increment counters of the tables.

External libraries are modelled abstractly but executably: `bcrypt.hash`
tags the password, `bcrypt.compare` checks against that tag, `jwt.sign`
produces an opaque token string.  Cloudinary uploads performed by the
multer middleware assign a file in the configured folder `modelconnect`
the public id `modelconnect/<name>` — the server's own comment above
`getPublicIdFromUrl` records this ("The public_id we need is
modelconnect/ab1cde2fgh") — and a delivery URL whose path contains
`/modelconnect/<name>.<ext>`.  `cloudinary.uploader.destroy pid` removes
exactly the asset whose public id is `pid`.
-/

namespace ModelSite

/-- A row of the `users` table. -/
structure UserRow where
  id : Nat
  name : String
  email : String
  password : String
  role : String
  has_profile : Bool
deriving Repr, DecidableEq

/-- A row of the `models` table. -/
structure ModelRow where
  id : Nat
  user_id : Nat
  name : String
  gender : String
  bio : String
  portfolio : String
  instagram_id : String
  image : String
  sample_video_url : Option String
deriving Repr, DecidableEq

/-- A row of the `model_images` table. -/
structure ImageRow where
  id : Nat
  model_id : Nat
  image_url : String
deriving Repr, DecidableEq

/-- A row of the `editor_uploads` table. -/
structure VideoRow where
  id : Nat
  user_id : Nat
  title : String
  description : String
  video_url : String
deriving Repr, DecidableEq

/-- Database and object-store state.  Table lists keep rows in insertion
order; `cloud` is the set (as a list) of Cloudinary public ids currently
stored; the `next*` fields are the tables' auto-increment counters. -/
structure State where
  users : List UserRow
  models : List ModelRow
  model_images : List ImageRow
  editor_uploads : List VideoRow
  cloud : List String
  nextUserId : Nat
  nextModelId : Nat
  nextImageId : Nat
deriving Repr, DecidableEq

/-- An HTTP reply: status code and the `message` field of the JSON body. -/
structure Response where
  status : Nat
  message : String
deriving Repr, DecidableEq

/-- Abstract model of `bcrypt.hash(password, 10)` (external library). -/
def bcryptHash (pw : String) : String := "bcrypt$" ++ pw

/-- Abstract model of `bcrypt.compare(password, hash)`: succeeds exactly on
the hash produced from the password. -/
def bcryptCompare (pw h : String) : Bool := h == bcryptHash pw

/-- Abstract model of `jwt.sign({id, role}, secret)` (external library). -/
def jwtSign (id : Nat) (role : String) : String :=
  "jwt." ++ toString id ++ "." ++ role

/-- `restrictTo(...roles)` middleware: `roles.includes(req.user.role)`. -/
def restrictToAllows (roles : List String) (role : String) : Bool :=
  roles.contains role

/-- Message sent with status 403 by `restrictTo`. -/
def permissionMsg : String := "You do not have permission to perform this action."

/-- `validRoles` list of the register handler. -/
def validRoles : List String := ["model", "photographer", "editor", "recruiter", "admin"]

/-- `SELECT * FROM users WHERE email = ?` (rows in table order). -/
def usersByEmail (s : State) (email : String) : List UserRow :=
  s.users.filter (fun u => u.email == email)

/-- POST `/api/auth/register`: validate fields and role, reject a duplicate
email with 409, otherwise hash the password and insert one user row. -/
def register (s : State) (name email password role : String) : State × Response :=
  if name = "" ∨ email = "" ∨ password = "" ∨ role = "" ∨ ¬ validRoles.contains role then
    (s, ⟨400, "All fields are required and role must be valid."⟩)
  else if usersByEmail s email ≠ [] then
    (s, ⟨409, "User with this email already exists."⟩)
  else
    let u : UserRow :=
      { id := s.nextUserId, name := name, email := email,
        password := bcryptHash password, role := role, has_profile := false }
    ({ s with users := s.users ++ [u], nextUserId := s.nextUserId + 1 },
     ⟨201, "User registered successfully"⟩)

/-- Full body of a login reply: status, message, and the token and user
object that are present only on success. -/
structure LoginResponse where
  status : Nat
  message : String
  token : Option String
  user : Option (Nat × String × String × String × Bool)
deriving Repr, DecidableEq

/-- POST `/api/auth/login`: 400 on missing fields, 401 `Invalid credentials.`
when the email is unknown or the password does not match, otherwise a token
and the user payload. -/
def login (s : State) (email password : String) : LoginResponse :=
  if email = "" ∨ password = "" then
    ⟨400, "Email and password are required.", none, none⟩
  else
    match (usersByEmail s email).head? with
    | none => ⟨401, "Invalid credentials.", none, none⟩
    | some u =>
      if bcryptCompare password u.password then
        ⟨200, "Login successful", some (jwtSign u.id u.role),
         some (u.id, u.name, u.email, u.role, u.has_profile)⟩
      else ⟨401, "Invalid credentials.", none, none⟩

/-- Reply of GET `/api/models`: either the 403 of `restrictTo`, or the
`models JOIN users` listing (each model row with the owner's role and
email).  The `ORDER BY created_at DESC` output order is not modelled here;
no claim about this route concerns it. -/
inductive CatalogueReply where
  | denied (status : Nat) (message : String)
  | listing (rows : List (ModelRow × String × String))
deriving Repr, DecidableEq

/-- GET `/api/models`, guarded by `restrictTo('recruiter', 'admin')`. -/
def getModels (s : State) (role : String) : CatalogueReply :=
  if restrictToAllows ["recruiter", "admin"] role then
    CatalogueReply.listing
      (s.models.filterMap
        (fun m => ((s.users.filter (fun u => u.id == m.user_id)).head?).map
          (fun u => (m, u.role, u.email))))
  else CatalogueReply.denied 403 permissionMsg

/-- The literal `/modelconnect/` the regex of `getPublicIdFromUrl` matches. -/
def folderPat : List Char := "/modelconnect/".toList

/-- The regex search `/\/modelconnect\/([^.]+)/` of `getPublicIdFromUrl`:
scan the URL left to right for a position where the literal
`/modelconnect/` matches and is followed by at least one character other
than a dot; the capture is the maximal run of non-dot characters there. -/
def findCapture : List Char → Option (List Char)
  | [] => none
  | c :: cs =>
    if folderPat.isPrefixOf (c :: cs) ∧
        ((c :: cs).drop folderPat.length).takeWhile (fun d => d ≠ '.') ≠ [] then
      some (((c :: cs).drop folderPat.length).takeWhile (fun d => d ≠ '.'))
    else findCapture cs

/-- `getPublicIdFromUrl(url)`: `url.match(/\/modelconnect\/([^.]+)/)`,
returning `match[1]` (the capture group alone) when the regex matches and
`null` otherwise. -/
def getPublicIdFromUrl (url : String) : Option String :=
  (findCapture url.toList).map (fun l => String.mk l)

/-- `cloudinary.uploader.destroy pid`: removes the asset with public id
`pid` from the object store; called with `null` it removes nothing. -/
def cloudinaryDestroy (cloud : List String) (pid : Option String) : List String :=
  match pid with
  | none => cloud
  | some p => cloud.filter (fun q => q != p)

/-- `destroy(getPublicIdFromUrl(url))`, the cleanup idiom of the server. -/
def destroyByUrl (cloud : List String) (url : String) : List String :=
  cloudinaryDestroy cloud (getPublicIdFromUrl url)

/-- A file stored by the Cloudinary upload middleware.  Upload into the
configured folder `modelconnect` gives the asset the public id
`modelconnect/<name>` (the folder is part of the public id, as the
server's comment above `getPublicIdFromUrl` records) and a delivery URL
whose path continues with `/modelconnect/<name>.<ext>`. -/
structure UploadedFile where
  host : String
  name : String
  ext : String
deriving Repr, DecidableEq

/-- The `file.path` URL stored in the database. -/
def UploadedFile.url (f : UploadedFile) : String :=
  f.host ++ "/modelconnect/" ++ f.name ++ "." ++ f.ext

/-- The public id Cloudinary assigned to the uploaded asset. -/
def UploadedFile.publicId (f : UploadedFile) : String :=
  "modelconnect/" ++ f.name

/-- `SELECT * FROM models WHERE user_id = ?` (rows in table order). -/
def modelsByUser (s : State) (uid : Nat) : List ModelRow :=
  s.models.filter (fun m => m.user_id == uid)

/-- `SELECT id, image_url FROM model_images WHERE model_id = ?`, in table
(insertion) order; the route issues this query with no ORDER BY. -/
def modelGallery (s : State) (modelId : Nat) : List ImageRow :=
  s.model_images.filter (fun r => r.model_id == modelId)

/-- The multipart body of POST `/api/models`: text fields (a missing field
arrives as the empty string) and the files stored by the upload
middleware, with multer's `maxCount` 1 for `mainImage` and `sampleVideo`
expressed by `Option`. -/
structure CreateReq where
  name : String
  gender : String
  bio : String
  portfolio : String
  instagram_id : String
  mainImage : Option UploadedFile
  sampleVideo : Option UploadedFile
  galleryImages : List UploadedFile
deriving Repr, DecidableEq

/-- Public ids the upload middleware stores for a create request. -/
def CreateReq.uploads (req : CreateReq) : List String :=
  (req.mainImage.toList ++ req.sampleVideo.toList ++ req.galleryImages).map
    UploadedFile.publicId

/-- The database steps of the create-profile transaction that can fail;
injected to model a query error after the media uploads succeeded. -/
inductive FailStep where
  | insertModel
  | insertImages
  | updateHasProfile
deriving Repr, DecidableEq

/-- Gallery rows inserted by `INSERT INTO model_images (model_id, image_url)
VALUES ?` for the given files, with auto-increment ids from `startId`. -/
def galleryRowsFor (startId modelId : Nat) (files : List UploadedFile) : List ImageRow :=
  files.enum.map (fun p => { id := startId + p.1, model_id := modelId, image_url := p.2.url })

/-- The catch branch of POST `/api/models`: roll the transaction back (the
database part of `s1` is the pre-transaction state) and destroy the
just-uploaded files via `getPublicIdFromUrl`, then answer 500. -/
def createRollback (s1 : State) (mainImg : UploadedFile) (req : CreateReq) :
    State × Response :=
  let c1 := destroyByUrl s1.cloud mainImg.url
  let c2 := match req.sampleVideo with
    | none => c1
    | some v => destroyByUrl c1 v.url
  let c3 := req.galleryImages.foldl (fun c f => destroyByUrl c f.url) c2
  ({ s1 with cloud := c3 }, ⟨500, "Failed to create profile."⟩)

/-- POST `/api/models`: `restrictTo('model','photographer')`, then the
multer upload (a request with more than 8 gallery files is refused by
`maxCount` with a MulterError the global handler turns into a 400, before
any handler code runs), then the handler's validations and the
transaction inserting the model row, the gallery rows and the
`has_profile` flag.  `fail` injects a query error at the named step. -/
def createProfile (s0 : State) (userId : Nat) (role : String) (req : CreateReq)
    (fail : Option FailStep) : State × Response :=
  if ¬ restrictToAllows ["model", "photographer"] role then
    (s0, ⟨403, permissionMsg⟩)
  else if req.galleryImages.length > 8 then
    (s0, ⟨400, "Too many files"⟩)
  else
    let s1 := { s0 with cloud := s0.cloud ++ req.uploads }
    match req.mainImage with
    | none => (s1, ⟨400, "A valid main profile image is required."⟩)
    | some mainImg =>
      if restrictToAllows ["model", "photographer"] role ∧ req.galleryImages.length < 4 then
        (s1, ⟨400, "A minimum of 4 gallery images are required at signup."⟩)
      else if req.name = "" ∨ req.gender = "" ∨ req.bio = "" then
        (s1, ⟨400, "Name, gender, and bio are required."⟩)
      else if fail = some FailStep.insertModel then createRollback s1 mainImg req
      else
        let modelId := s1.nextModelId
        let newModel : ModelRow :=
          { id := modelId, user_id := userId, name := req.name, gender := req.gender,
            bio := req.bio, portfolio := req.portfolio, instagram_id := req.instagram_id,
            image := mainImg.url, sample_video_url := req.sampleVideo.map UploadedFile.url }
        let s2 := { s1 with models := s1.models ++ [newModel], nextModelId := modelId + 1 }
        if fail = some FailStep.insertImages then createRollback s1 mainImg req
        else
          let s3 := { s2 with
            model_images := s2.model_images ++ galleryRowsFor s2.nextImageId modelId req.galleryImages,
            nextImageId := s2.nextImageId + req.galleryImages.length }
          if fail = some FailStep.updateHasProfile then createRollback s1 mainImg req
          else
            let s4 := { s3 with
              users := s3.users.map
                (fun u => if u.id == userId then { u with has_profile := true } else u) }
            (s4, ⟨201, "Profile created successfully!"⟩)

/-- POST `/api/models/my-profile/gallery`: multer stores up to 8 files
(more are refused before the handler runs), then the handler checks the
8-image limit against the existing count, destroying the new uploads via
`getPublicIdFromUrl` and rolling back when it would be exceeded. -/
def uploadGallery (s0 : State) (userId : Nat) (files : List UploadedFile) :
    State × Response :=
  if files.length > 8 then (s0, ⟨400, "Too many files"⟩)
  else
    let s1 := { s0 with cloud := s0.cloud ++ files.map UploadedFile.publicId }
    if files.length = 0 then (s1, ⟨400, "No images were uploaded."⟩)
    else
      match (modelsByUser s1 userId).head? with
      | none => (s1, ⟨500, "Profile not found."⟩)
      | some m =>
        let existingCount := (modelGallery s1 m.id).length
        if existingCount + files.length > 8 then
          ({ s1 with cloud := files.foldl (fun c f => destroyByUrl c f.url) s1.cloud },
           ⟨500, "You can only upload " ++ toString ((8 : Int) - existingCount) ++
             " more images. Limit is 8."⟩)
        else
          ({ s1 with
             model_images := s1.model_images ++ galleryRowsFor s1.nextImageId m.id files,
             nextImageId := s1.nextImageId + files.length },
           ⟨201, toString files.length ++ " images uploaded successfully."⟩)

/-- DELETE `/api/models/my-profile/gallery/:imageId`: look the row up under
the requester's model id, refuse to delete the current main image, then
destroy the Cloudinary asset via `getPublicIdFromUrl` and delete the row
(`DELETE FROM model_images WHERE id = ?`).  Every error is answered with
status 400 after rollback. -/
def deleteGalleryImage (s0 : State) (userId : Nat) (imageId : Nat) :
    State × Response :=
  match (modelsByUser s0 userId).head? with
  | none => (s0, ⟨400, "Profile not found."⟩)
  | some m =>
    match (s0.model_images.filter (fun r => r.id == imageId && r.model_id == m.id)).head? with
    | none => (s0, ⟨400, "Image not found or you do not have permission to delete it."⟩)
    | some row =>
      if m.image == row.image_url then
        (s0, ⟨400, "Cannot delete the main profile image. Please set a different one first."⟩)
      else
        ({ s0 with
           cloud := destroyByUrl s0.cloud row.image_url,
           model_images := s0.model_images.filter (fun r => r.id != imageId) },
         ⟨200, "Image deleted successfully."⟩)

/-- PUT `/api/models/my-profile/main-image`: require a URL, verify it is
the `image_url` of one of the requester's gallery rows, then update the
model row's `image` field. -/
def setMainImage (s0 : State) (userId : Nat) (imageUrl : String) :
    State × Response :=
  if imageUrl = "" then (s0, ⟨400, "Image URL is required."⟩)
  else
    match (modelsByUser s0 userId).head? with
    | none => (s0, ⟨404, "Profile not found."⟩)
    | some m =>
      if (s0.model_images.filter
          (fun r => r.model_id == m.id && r.image_url == imageUrl)) = [] then
        (s0, ⟨403, "This image does not belong to your profile."⟩)
      else
        ({ s0 with
           models := s0.models.map
             (fun x => if x.id == m.id then { x with image := imageUrl } else x) },
         ⟨200, "Main profile image updated successfully."⟩)

/-- DELETE `/api/editor/videos/:videoId`: `restrictTo('editor')`, look the
video up under the requester's user id (404 when absent), then destroy
the Cloudinary asset via `getPublicIdFromUrl` and delete the row. -/
def deleteVideo (s0 : State) (userId : Nat) (role : String) (videoId : Nat) :
    State × Response :=
  if ¬ restrictToAllows ["editor"] role then (s0, ⟨403, permissionMsg⟩)
  else
    match (s0.editor_uploads.filter
        (fun v => v.id == videoId && v.user_id == userId)).head? with
    | none => (s0, ⟨404, "Video not found or you do not have permission to delete it."⟩)
    | some v =>
      ({ s0 with
         cloud := destroyByUrl s0.cloud v.video_url,
         editor_uploads := s0.editor_uploads.filter (fun w => w.id != videoId) },
       ⟨200, "Video deleted successfully."⟩)

/-- Body of a successful profile fetch: the model row and its gallery
rows (the joined `role`/`email` of the public route are not needed by any
claim and are omitted). -/
inductive ProfileReply where
  | notFound
  | found (profile : ModelRow) (gallery : List ImageRow)
deriving Repr, DecidableEq

/-- The legal replies of GET `/api/models/my-profile`.  Both SELECTs are
issued without ORDER BY, so SQL leaves the row order unspecified: the
profile may be any model row of the user (`rows[0]` of an arbitrary
ordering) and the gallery any permutation of the model's image rows. -/
def myProfileReplies (s : State) (uid : Nat) (rep : ProfileReply) : Prop :=
  match rep with
  | ProfileReply.notFound => ∀ m ∈ s.models, m.user_id ≠ uid
  | ProfileReply.found p g =>
    p ∈ s.models ∧ p.user_id = uid ∧ g.Perm (modelGallery s p.id)

/-- The legal replies of GET `/api/profile/:userId` (the `models JOIN
users` route): as `myProfileReplies`, with the join requiring a `users`
row for the model.  The gallery SELECT again has no ORDER BY. -/
def publicProfileReplies (s : State) (targetUid : Nat) (rep : ProfileReply) : Prop :=
  match rep with
  | ProfileReply.notFound =>
    ∀ m ∈ s.models, m.user_id = targetUid → ∀ u ∈ s.users, u.id ≠ m.user_id
  | ProfileReply.found p g =>
    p ∈ s.models ∧ p.user_id = targetUid ∧ (∃ u ∈ s.users, u.id = p.user_id) ∧
      g.Perm (modelGallery s p.id)

/-- The spec's invariant on a model row: its `image` field is the
`image_url` of one of its own `model_images` rows. -/
def imageInGallery (s : State) (m : ModelRow) : Prop :=
  ∃ r ∈ s.model_images, r.model_id = m.id ∧ r.image_url = m.image

/-- Primary-key uniqueness of `model_images.id`. -/
def imageIdsUnique (s : State) : Prop :=
  (s.model_images.map ImageRow.id).Nodup

/-- Primary-key uniqueness of `models.id`. -/
def modelIdsUnique (s : State) : Prop :=
  (s.models.map ModelRow.id).Nodup

/-! Concrete fixtures used to evaluate the handlers on closed inputs. -/

/-- A gallery image uploaded from host `h`. -/
def fileJpg (n : String) : UploadedFile := { host := "h", name := n, ext := "jpg" }

/-- A registered user with the `model` role. -/
def userA : UserRow :=
  { id := 1, name := "A", email := "a@b.c", password := bcryptHash "pw",
    role := "model", has_profile := false }

/-- A registered user with the `editor` role. -/
def userE : UserRow :=
  { id := 2, name := "E", email := "e@b.c", password := bcryptHash "pw",
    role := "editor", has_profile := false }

/-- Fresh database: two users, no profiles, empty object store. -/
def baseState : State :=
  { users := [userA, userE], models := [], model_images := [], editor_uploads := [],
    cloud := [], nextUserId := 3, nextModelId := 1, nextImageId := 1 }

/-- A well-formed create-profile request: main image, sample video and
four gallery images. -/
def reqA : CreateReq :=
  { name := "A", gender := "f", bio := "b", portfolio := "", instagram_id := "",
    mainImage := some (fileJpg "main1"),
    sampleVideo := some { host := "h", name := "vid1", ext := "mp4" },
    galleryImages := [fileJpg "g1", fileJpg "g2", fileJpg "g3", fileJpg "g4"] }

/-- The state after user 1 successfully created a profile from `reqA`. -/
def afterCreate : State := (createProfile baseState 1 "model" reqA none).1

/-- The model row of user 1 as created from `reqA`. -/
def modelA : ModelRow :=
  { id := 1, user_id := 1, name := "A", gender := "f", bio := "b", portfolio := "",
    instagram_id := "", image := "h/modelconnect/main1.jpg", sample_video_url := none }

/-- Gallery row `i` of model 1 holding upload `n`. -/
def galleryRow (i : Nat) (n : String) : ImageRow :=
  { id := i, model_id := 1, image_url := "h/modelconnect/" ++ n ++ ".jpg" }

/-- Model 1 already holds the maximal 8 gallery images. -/
def fullGalleryState : State :=
  { users := [userA], models := [modelA],
    model_images := [galleryRow 1 "g1", galleryRow 2 "g2", galleryRow 3 "g3",
      galleryRow 4 "g4", galleryRow 5 "g5", galleryRow 6 "g6", galleryRow 7 "g7",
      galleryRow 8 "g8"],
    editor_uploads := [],
    cloud := ["modelconnect/main1", "modelconnect/g1", "modelconnect/g2",
      "modelconnect/g3", "modelconnect/g4", "modelconnect/g5", "modelconnect/g6",
      "modelconnect/g7", "modelconnect/g8"],
    nextUserId := 3, nextModelId := 2, nextImageId := 9 }

/-- One deletable gallery image of model 1 and one video of editor 2,
with their assets in the object store. -/
def deleteState : State :=
  { users := [userA, userE], models := [modelA],
    model_images := [{ id := 2, model_id := 1, image_url := "h/modelconnect/pic1.jpg" }],
    editor_uploads := [{ id := 3, user_id := 2, title := "t", description := "d",
                         video_url := "h/modelconnect/vid1.mp4" }],
    cloud := ["modelconnect/main1", "modelconnect/pic1", "modelconnect/vid1"],
    nextUserId := 3, nextModelId := 2, nextImageId := 3 }

/-- First gallery row of model 1. -/
def rowA : ImageRow := { id := 1, model_id := 1, image_url := "h/modelconnect/g1.jpg" }

/-- Second gallery row of model 1, added after `rowA`. -/
def rowB : ImageRow := { id := 2, model_id := 1, image_url := "h/modelconnect/g2.jpg" }

/-- Model 1 with the two-row gallery `[rowA, rowB]`. -/
def twoImageState : State :=
  { users := [userA], models := [modelA], model_images := [rowA, rowB],
    editor_uploads := [],
    cloud := ["modelconnect/main1", "modelconnect/g1", "modelconnect/g2"],
    nextUserId := 3, nextModelId := 2, nextImageId := 3 }

/-- As `modelA` but with its main image taken from its own gallery. -/
def modelB : ModelRow :=
  { id := 1, user_id := 1, name := "A", gender := "f", bio := "b", portfolio := "",
    instagram_id := "", image := "h/modelconnect/g1.jpg", sample_video_url := none }

/-- A state satisfying the main-image-in-gallery invariant. -/
def invState : State :=
  { users := [userA], models := [modelB], model_images := [rowA, rowB],
    editor_uploads := [],
    cloud := ["modelconnect/g1", "modelconnect/g2"],
    nextUserId := 3, nextModelId := 2, nextImageId := 3 }

/-- A gallery row of a foreign model (id 5, owned by user 9) and a video
of a foreign user (id 6), next to user 1's own profile. -/
def foreignState : State :=
  { users := [userA, userE],
    models := [modelA,
      { id := 5, user_id := 9, name := "Z", gender := "m", bio := "z", portfolio := "",
        instagram_id := "", image := "h/modelconnect/zmain.jpg", sample_video_url := none }],
    model_images := [{ id := 7, model_id := 5, image_url := "h/modelconnect/zpic.jpg" }],
    editor_uploads := [{ id := 9, user_id := 6, title := "t", description := "d",
                         video_url := "h/modelconnect/zvid.mp4" }],
    cloud := ["modelconnect/main1", "modelconnect/zmain", "modelconnect/zpic",
      "modelconnect/zvid"],
    nextUserId := 10, nextModelId := 6, nextImageId := 8 }

/-- A create request over `baseState` whose transaction fails at step `f`
after all media uploads succeeded. -/
def createAttempt (f : FailStep) : State × Response :=
  createProfile baseState 1 "model" reqA (some f)

/-- The six public ids the upload middleware stored for `reqA`. -/
def reqAIds : List String :=
  ["modelconnect/main1", "modelconnect/vid1", "modelconnect/g1", "modelconnect/g2",
   "modelconnect/g3", "modelconnect/g4"]

/-!  Theorems settling the claims. -/

/-- Helper: the head of a filtered list is a member satisfying the
predicate. -/
theorem head?_filter_mem {α : Type} (p : α → Bool) (l : List α) (a : α)
    (h : (l.filter p).head? = some a) : a ∈ l ∧ p a = true :=
  List.mem_filter.mp (List.mem_of_mem_head? (Option.mem_def.mpr h))

/-- C1: when the create-profile transaction fails after the media uploads
(at the models insert, the model_images insert, or the has_profile
update), the database is rolled back and the response is 500 — but the
Cloudinary cleanup destroys nothing: `getPublicIdFromUrl` strips the
`modelconnect/` folder from the public id (contrary to the code's own
comment), so all six just-uploaded assets are still in the object store
after the rollback. -/
theorem create_failure_rolls_back_but_uploads_remain :
    ((createAttempt FailStep.insertModel).2.status = 500 ∧
      (createAttempt FailStep.insertModel).1.users = baseState.users ∧
      (createAttempt FailStep.insertModel).1.models = [] ∧
      (createAttempt FailStep.insertModel).1.model_images = [] ∧
      (createAttempt FailStep.insertModel).1.cloud = reqAIds) ∧
    ((createAttempt FailStep.insertImages).2.status = 500 ∧
      (createAttempt FailStep.insertImages).1.users = baseState.users ∧
      (createAttempt FailStep.insertImages).1.models = [] ∧
      (createAttempt FailStep.insertImages).1.model_images = [] ∧
      (createAttempt FailStep.insertImages).1.cloud = reqAIds) ∧
    ((createAttempt FailStep.updateHasProfile).2.status = 500 ∧
      (createAttempt FailStep.updateHasProfile).1.users = baseState.users ∧
      (createAttempt FailStep.updateHasProfile).1.models = [] ∧
      (createAttempt FailStep.updateHasProfile).1.model_images = [] ∧
      (createAttempt FailStep.updateHasProfile).1.cloud = reqAIds) ∧
    getPublicIdFromUrl (fileJpg "g1").url = some "g1" ∧
    (fileJpg "g1").publicId = "modelconnect/g1" := by decide

/-- C2: POST /api/models never checks whether the user already has a
profile: two successful create requests by user 1 both answer 201 and
leave two `models` rows with `user_id = 1`. -/
theorem repeated_create_duplicates_model_row :
    (createProfile baseState 1 "model" reqA none).2.status = 201 ∧
    (createProfile afterCreate 1 "model" reqA none).2.status = 201 ∧
    (modelsByUser (createProfile afterCreate 1 "model" reqA none).1 1).length = 2 := by
  decide

/-- C3: a successful creation from `reqA` leaves 4 gallery rows, and a
gallery upload that would exceed 8 images answers 500 and inserts no
rows — but the just-uploaded asset is not destroyed: the cleanup calls
destroy with the folder-stripped id `g9`, so `modelconnect/g9` is still
in the object store. -/
theorem gallery_overflow_rejected_but_upload_remains :
    (modelGallery afterCreate 1).length = 4 ∧
    (uploadGallery fullGalleryState 1 [fileJpg "g9"]).2.status = 500 ∧
    (uploadGallery fullGalleryState 1 [fileJpg "g9"]).1.model_images =
      fullGalleryState.model_images ∧
    "modelconnect/g9" ∈ (uploadGallery fullGalleryState 1 [fileJpg "g9"]).1.cloud := by
  decide

/-- C5: both delete endpoints remove the database row and answer 200, but
the object store is left entirely unchanged: destroy is called with the
folder-stripped public id (`pic1`, `vid1`), so the assets
`modelconnect/pic1` and `modelconnect/vid1` referenced by the stored URLs
are not destroyed. -/
theorem delete_removes_row_but_asset_remains :
    (deleteGalleryImage deleteState 1 2).2.status = 200 ∧
    (deleteGalleryImage deleteState 1 2).1.model_images = [] ∧
    (deleteGalleryImage deleteState 1 2).1.cloud = deleteState.cloud ∧
    (deleteVideo deleteState 2 "editor" 3).2.status = 200 ∧
    (deleteVideo deleteState 2 "editor" 3).1.editor_uploads = [] ∧
    (deleteVideo deleteState 2 "editor" 3).1.cloud = deleteState.cloud := by decide

/-- C4 counterexample: immediately after a successful profile creation
the model's `image` field holds the separately uploaded main image,
whose URL is not the `image_url` of any `model_images` row — the claimed
invariant fails at the first point of the lifecycle. -/
theorem created_main_image_not_in_gallery :
    (createProfile baseState 1 "model" reqA none).2.status = 201 ∧
    (modelsByUser afterCreate 1).length = 1 ∧
    afterCreate.models.all
      (fun m => afterCreate.model_images.all (fun r => r.image_url != m.image)) = true := by
  decide

/-- C6: GET /api/models is guarded by `restrictTo('recruiter','admin')`:
a recruiter receives the listing, while the roles model, photographer
and editor receive the 403 permission error. -/
theorem catalogue_restricted_to_recruiters (s : State) :
    (∃ rows, getModels s "recruiter" = CatalogueReply.listing rows) ∧
    getModels s "model" = CatalogueReply.denied 403 permissionMsg ∧
    getModels s "photographer" = CatalogueReply.denied 403 permissionMsg ∧
    getModels s "editor" = CatalogueReply.denied 403 permissionMsg := by
  refine ⟨⟨_, rfl⟩, rfl, rfl, rfl⟩

/-- C7 counterexample: the gallery SELECT has no ORDER BY, so the reply
`[rowB, rowA]` is a legal fetch result for model 1's gallery, yet it
differs from the insertion order `[rowA, rowB]` — the order of a fetch
is not fixed to the order in which the rows were added. -/
theorem gallery_fetch_order_not_fixed :
    myProfileReplies twoImageState 1 (ProfileReply.found modelA [rowB, rowA]) ∧
    [rowB, rowA] ≠ modelGallery twoImageState modelA.id := by
  constructor
  · show modelA ∈ twoImageState.models ∧ modelA.user_id = 1 ∧
      List.Perm [rowB, rowA] (modelGallery twoImageState modelA.id)
    exact ⟨by decide, by decide, by decide⟩
  · decide

/-- C7 amended: every legal reply of the two profile-fetch routes returns
exactly the model's gallery rows — each `model_images` row of the model
once and nothing else — though in an order the queries leave
unspecified. -/
theorem profile_fetch_gallery_is_models_rows (s : State) (uid : Nat) (p : ModelRow)
    (g : List ImageRow)
    (h : myProfileReplies s uid (ProfileReply.found p g) ∨
      publicProfileReplies s uid (ProfileReply.found p g)) :
    (∀ r, r ∈ g ↔ (r ∈ s.model_images ∧ r.model_id = p.id)) ∧
    g.length = (modelGallery s p.id).length := by
  have hperm : g.Perm (modelGallery s p.id) := by
    rcases h with h | h
    · exact h.2.2
    · exact h.2.2.2
  constructor
  · intro r
    rw [hperm.mem_iff]
    simp [modelGallery, List.mem_filter]
  · exact hperm.length_eq

/-- Witness for C7's amended theorem at a concrete state and reply. -/
theorem profile_fetch_gallery_witness :
    (∀ r, r ∈ [rowB, rowA] ↔ (r ∈ twoImageState.model_images ∧ r.model_id = modelA.id)) ∧
    List.length [rowB, rowA] = (modelGallery twoImageState modelA.id).length :=
  profile_fetch_gallery_is_models_rows twoImageState 1 modelA [rowB, rowA]
    (Or.inl ⟨by decide, by decide, by decide⟩)

/-- C8 counterexample: a request whose email already exists but whose
`name` field is missing is answered 400, not 409 — the duplicate-email
check runs only after the field validation. -/
theorem register_duplicate_email_with_missing_field_returns_400 :
    baseState.users.any (fun u => u.email == "a@b.c") = true ∧
    register baseState "" "a@b.c" "pw" "model" =
      (baseState, ⟨400, "All fields are required and role must be valid."⟩) := by decide

/-- C8 amended: for a request with all fields present and a valid role, a
duplicate email is answered 409 with the table unchanged, and a fresh
email inserts exactly one hashed user row and is answered 201. -/
theorem register_spec (s : State) (name email password role : String)
    (hn : name ≠ "") (he : email ≠ "") (hp : password ≠ "")
    (hr : validRoles.contains role = true) :
    ((∃ u ∈ s.users, u.email = email) →
      register s name email password role =
        (s, ⟨409, "User with this email already exists."⟩)) ∧
    ((∀ u ∈ s.users, u.email ≠ email) →
      register s name email password role =
        ({ s with
            users := s.users ++
              [{ id := s.nextUserId, name := name, email := email,
                 password := bcryptHash password, role := role, has_profile := false }],
            nextUserId := s.nextUserId + 1 },
         ⟨201, "User registered successfully"⟩)) := by
  have hrole : role ≠ "" := by
    intro h0
    rw [h0] at hr
    exact absurd hr (by decide)
  have hv : ¬(name = "" ∨ email = "" ∨ password = "" ∨ role = "" ∨
      ¬ validRoles.contains role) := by
    push_neg
    exact ⟨hn, he, hp, hrole, hr⟩
  constructor
  · rintro ⟨u, hu, hue⟩
    have hne : usersByEmail s email ≠ [] := by
      intro h0
      simp only [usersByEmail] at h0
      have := List.filter_eq_nil_iff.mp h0 u hu
      simp [hue] at this
    unfold register
    rw [if_neg hv, if_pos hne]
  · intro hall
    have h0 : usersByEmail s email = [] := by
      simp only [usersByEmail]
      rw [List.filter_eq_nil_iff]
      intro u hu
      simp [hall u hu]
    unfold register
    rw [if_neg hv, if_neg (not_not_intro h0)]

/-- Witness for C8's amended theorem: both branches at concrete inputs. -/
theorem register_spec_witness :
    register baseState "B" "a@b.c" "pw" "model" =
      (baseState, ⟨409, "User with this email already exists."⟩) ∧
    register baseState "B" "c@b.c" "pw" "model" =
      ({ baseState with
          users := baseState.users ++
            [{ id := baseState.nextUserId, name := "B", email := "c@b.c",
               password := bcryptHash "pw", role := "model", has_profile := false }],
          nextUserId := baseState.nextUserId + 1 },
       ⟨201, "User registered successfully"⟩) :=
  ⟨(register_spec baseState "B" "a@b.c" "pw" "model" (by decide) (by decide) (by decide)
      (by decide)).1 ⟨userA, by decide, by decide⟩,
   (register_spec baseState "B" "c@b.c" "pw" "model" (by decide) (by decide) (by decide)
      (by decide)).2 (by decide)⟩

/-- C9: a login whose email is unknown and a login whose email exists but
whose password does not match produce the identical response — status
401, message `Invalid credentials.`, no token, no user payload — so the
two failure causes are indistinguishable to the caller. -/
theorem login_failures_indistinguishable (s1 s2 : State) (e1 p1 e2 p2 : String)
    (he1 : e1 ≠ "") (hp1 : p1 ≠ "") (he2 : e2 ≠ "") (hp2 : p2 ≠ "")
    (h1 : ∀ u ∈ s1.users, u.email ≠ e1)
    (_hex : ∃ u ∈ s2.users, u.email = e2)
    (h2 : ∀ u ∈ s2.users, u.email = e2 → bcryptCompare p2 u.password = false) :
    login s1 e1 p1 = ⟨401, "Invalid credentials.", none, none⟩ ∧
    login s2 e2 p2 = ⟨401, "Invalid credentials.", none, none⟩ ∧
    login s1 e1 p1 = login s2 e2 p2 := by
  have hq1 : usersByEmail s1 e1 = [] := by
    simp only [usersByEmail]
    rw [List.filter_eq_nil_iff]
    intro u hu
    simp [h1 u hu]
  have goal1 : login s1 e1 p1 = ⟨401, "Invalid credentials.", none, none⟩ := by
    unfold login
    rw [if_neg (by push_neg; exact ⟨he1, hp1⟩), hq1]
    rfl
  have goal2 : login s2 e2 p2 = ⟨401, "Invalid credentials.", none, none⟩ := by
    unfold login
    rw [if_neg (by push_neg; exact ⟨he2, hp2⟩)]
    cases hh : (usersByEmail s2 e2).head? with
    | none => rfl
    | some u =>
      have hu : u ∈ s2.users ∧ (u.email == e2) = true := by
        simp only [usersByEmail] at hh
        exact head?_filter_mem _ _ _ hh
      have hcmp : bcryptCompare p2 u.password = false :=
        h2 u hu.1 (by simpa using hu.2)
      simp [hcmp]
  exact ⟨goal1, goal2, by rw [goal1, goal2]⟩

/-- Witness for C9 at a concrete database: unknown email versus wrong
password give the same reply. -/
theorem login_failures_witness :
    login baseState "x@b.c" "pw" = ⟨401, "Invalid credentials.", none, none⟩ ∧
    login baseState "a@b.c" "wrong" = ⟨401, "Invalid credentials.", none, none⟩ ∧
    login baseState "x@b.c" "pw" = login baseState "a@b.c" "wrong" :=
  login_failures_indistinguishable baseState baseState "x@b.c" "pw" "a@b.c" "wrong"
    (by decide) (by decide) (by decide) (by decide) (by decide)
    ⟨userA, by decide, by decide⟩ (by decide)

/-- C10: a delete naming a gallery image of a different model, or a video
of a different user, is answered with an error and changes neither the
database rows nor the object store — the whole state is returned
untouched. -/
theorem foreign_delete_is_noop (s : State) (uid imageId videoId : Nat) (m : ModelRow)
    (hm : (modelsByUser s uid).head? = some m)
    (himg : ∀ r ∈ s.model_images, r.id = imageId → r.model_id ≠ m.id)
    (hvid : ∀ v ∈ s.editor_uploads, v.id = videoId → v.user_id ≠ uid) :
    deleteGalleryImage s uid imageId =
      (s, ⟨400, "Image not found or you do not have permission to delete it."⟩) ∧
    deleteVideo s uid "editor" videoId =
      (s, ⟨404, "Video not found or you do not have permission to delete it."⟩) := by
  constructor
  · have hfil : s.model_images.filter
        (fun r => r.id == imageId && r.model_id == m.id) = [] := by
      rw [List.filter_eq_nil_iff]
      intro r hr
      simp only [Bool.and_eq_true, beq_iff_eq, not_and]
      intro h1
      exact himg r hr h1
    simp [deleteGalleryImage, hm, hfil]
  · have hfil : s.editor_uploads.filter
        (fun v => v.id == videoId && v.user_id == uid) = [] := by
      rw [List.filter_eq_nil_iff]
      intro v hv
      simp only [Bool.and_eq_true, beq_iff_eq, not_and]
      intro h1
      exact hvid v hv h1
    simp [deleteVideo, hfil, restrictToAllows]

/-- Witness for C10 at a concrete state: user 1 attacks model 5's image
and user 6's video; nothing changes. -/
theorem foreign_delete_witness :
    deleteGalleryImage foreignState 1 7 =
      (foreignState, ⟨400, "Image not found or you do not have permission to delete it."⟩) ∧
    deleteVideo foreignState 1 "editor" 9 =
      (foreignState, ⟨404, "Video not found or you do not have permission to delete it."⟩) :=
  foreign_delete_is_noop foreignState 1 7 9 modelA (by decide) (by decide) (by decide)

/-- C4 amended: once established, the main-image invariant is preserved —
a successful PUT main-image leaves the updated model row's `image` equal
to one of its own gallery rows, and a successful gallery deletion never
removes the row backing any model's `image` field (under primary-key
uniqueness of the `models` and `model_images` ids).  The invariant does
not hold at creation (see the counterexample). -/
theorem main_image_membership_after_update_and_delete :
    (∀ (s : State) (uid : Nat) (url : String),
      (setMainImage s uid url).2.status = 200 →
      ∃ m ∈ (setMainImage s uid url).1.models,
        m.user_id = uid ∧ m.image = url ∧ imageInGallery (setMainImage s uid url).1 m) ∧
    (∀ (s : State) (uid imageId : Nat),
      imageIdsUnique s → modelIdsUnique s →
      (deleteGalleryImage s uid imageId).2.status = 200 →
      ∀ m ∈ s.models, imageInGallery s m →
        imageInGallery (deleteGalleryImage s uid imageId).1 m) := by
  constructor
  · intro s uid url h200
    by_cases hurl : url = ""
    · exfalso
      simp [setMainImage, hurl] at h200
    cases hm0 : (modelsByUser s uid).head? with
    | none =>
      exfalso
      simp [setMainImage, hurl, hm0] at h200
    | some m0 =>
      by_cases hfil : s.model_images.filter
          (fun r => r.model_id == m0.id && r.image_url == url) = []
      · exfalso
        simp [setMainImage, hurl, hm0, hfil] at h200
      · have hres : (setMainImage s uid url).1 =
            { s with
              models := s.models.map
                (fun x => if x.id == m0.id then { x with image := url } else x) } := by
          simp [setMainImage, hurl, hm0, hfil]
        obtain ⟨r, hr⟩ := List.exists_mem_of_ne_nil _ hfil
        have hr2 := List.mem_filter.mp hr
        have hrprops : r.model_id = m0.id ∧ r.image_url = url := by
          have := hr2.2
          simp only [Bool.and_eq_true, beq_iff_eq] at this
          exact this
        have hm0f : m0 ∈ s.models ∧ (m0.user_id == uid) = true := by
          simp only [modelsByUser] at hm0
          exact head?_filter_mem _ _ _ hm0
        refine ⟨{ m0 with image := url }, ?_, by simpa using hm0f.2, rfl, ?_⟩
        · rw [hres]
          have himg : (fun x => if x.id == m0.id then { x with image := url } else x) m0
              = { m0 with image := url } := by simp
          exact himg ▸ List.mem_map_of_mem _ hm0f.1
        · exact ⟨r, by rw [hres]; exact hr2.1, hrprops.1, hrprops.2⟩
  · intro s uid imageId hu hmu h200 m hmmem hinv
    cases hm0 : (modelsByUser s uid).head? with
    | none =>
      exfalso
      simp [deleteGalleryImage, hm0] at h200
    | some m0 =>
      cases hrow : (s.model_images.filter
          (fun r => r.id == imageId && r.model_id == m0.id)).head? with
      | none =>
        exfalso
        simp [deleteGalleryImage, hm0, hrow] at h200
      | some row0 =>
        by_cases hguard : (m0.image == row0.image_url) = true
        · exfalso
          simp [deleteGalleryImage, hm0, hrow, hguard] at h200
        · have hres : (deleteGalleryImage s uid imageId).1 =
              { s with cloud := destroyByUrl s.cloud row0.image_url,
                       model_images := s.model_images.filter (fun r => r.id != imageId) } := by
            simp [deleteGalleryImage, hm0, hrow, hguard]
          obtain ⟨r, hrmem, hrmid, hrurl⟩ := hinv
          have hrow0 := head?_filter_mem _ _ _ hrow
          have hrow0props : row0.id = imageId ∧ row0.model_id = m0.id := by
            have := hrow0.2
            simp only [Bool.and_eq_true, beq_iff_eq] at this
            exact this
          have hm0f : m0 ∈ s.models ∧ (m0.user_id == uid) = true := by
            simp only [modelsByUser] at hm0
            exact head?_filter_mem _ _ _ hm0
          have hneq : r.id ≠ imageId := by
            intro hid
            have hr_eq_row0 : r = row0 :=
              List.inj_on_of_nodup_map hu hrmem hrow0.1 (by rw [hid, hrow0props.1])
            have hmid : m.id = m0.id := by rw [← hrmid, hr_eq_row0, hrow0props.2]
            have hmm0 : m = m0 := List.inj_on_of_nodup_map hmu hmmem hm0f.1 hmid
            apply hguard
            rw [beq_iff_eq, ← hmm0, ← hrurl, hr_eq_row0]
          refine ⟨r, ?_, hrmid, hrurl⟩
          rw [hres]
          exact List.mem_filter.mpr ⟨hrmem, by simpa using hneq⟩

/-- Witness for C4's amended theorem: a concrete main-image update and a
concrete gallery deletion both end with the invariant holding. -/
theorem main_image_membership_witness :
    (∃ m ∈ (setMainImage twoImageState 1 "h/modelconnect/g2.jpg").1.models,
      m.user_id = 1 ∧ m.image = "h/modelconnect/g2.jpg" ∧
      imageInGallery (setMainImage twoImageState 1 "h/modelconnect/g2.jpg").1 m) ∧
    imageInGallery (deleteGalleryImage invState 1 2).1 modelB :=
  ⟨main_image_membership_after_update_and_delete.1 twoImageState 1
      "h/modelconnect/g2.jpg" (by decide),
   main_image_membership_after_update_and_delete.2 invState 1 2
      (by unfold imageIdsUnique; decide) (by unfold modelIdsUnique; decide)
      (by decide) modelB (by decide) (by unfold imageInGallery; decide)⟩

end ModelSite
